import Mathlib

/-
Verification of the SeleniumDriver session facade (bowtie-co/node-selenium-driver).

The staged file src/src/SeleniumDriver.js holds two revisions of the class:
an earlier revision at lines 1-233 and the documented revision (the one the
generated API documentation corresponds to) at lines 234-573.  Where the two
revisions agree a definition below embeds both and the doc comment cites both
line ranges; where they diverge the documented revision is embedded under the
plain name and the earlier revision under a name with the suffix V0.

JavaScript strings are modelled as lists of characters (the strings involved
are ASCII).  Asynchronous methods are modelled by their observable result: the
promise either resolves (Outcome.ok) or rejects with an Error message
(Outcome.raised).  A rejected promise that the source constructs but never
awaits does not reject the caller; such discarded rejections are recorded in
the `unhandled` field of a run result.
-/

set_option maxRecDepth 10000

/-- JS strings, modelled as lists of characters. -/
abbrev JSStr := List Char

/-- Coerce a Lean string literal into the character-list model. -/
def jstr (s : String) : JSStr := s.data

/-- A character matched by the regex character class [a-zA-Z0-9]. -/
def isAlnumAscii (c : Char) : Bool := c.isAlpha || c.isDigit

/-- A character removed by JS String.prototype.trim (modelled for the ASCII
whitespace characters; the messages slugged here are ASCII). -/
def isJsWhitespace (c : Char) : Bool :=
  c == ' ' || c == '\t' || c == '\n' || c == '\x0b' || c == '\x0c' || c == '\r'

/-- JS `s.trim()`: drop leading and trailing whitespace. -/
def trimWs (l : JSStr) : JSStr :=
  ((l.dropWhile isJsWhitespace).reverse.dropWhile isJsWhitespace).reverse

/-- JS `s.replace(/[^a-zA-Z0-9]/g, "-")`: every single non-alphanumeric
character becomes one hyphen (the /g flag replaces each matched character;
the pattern matches one character at a time, not a run). -/
def replaceNonAlnum (l : JSStr) : JSStr :=
  l.map (fun c => if isAlnumAscii c then c else '-')

/-- JS `s.toLowerCase()` (ASCII case mapping; the slugged messages are ASCII). -/
def lowerAll (l : JSStr) : JSStr := l.map Char.toLower

/-- JS `s.replace(/[-]*$/, "")` (no /g flag): the first position where the
pattern matches and is nonempty is the start of the maximal trailing run of
hyphens, so the call removes every trailing hyphen and nothing else. -/
def dropTrailingHyphens (l : JSStr) : JSStr :=
  (l.reverse.dropWhile (fun c => c == '-')).reverse

/-- The slug of a failure message, from
`msg.trim().replace(/[^a-zA-Z0-9]/g, '-').toLowerCase().replace(/[-]*$/, '')`
(SeleniumDriver.js line 177 and line 503; the two revisions agree). -/
def slug (msg : JSStr) : JSStr :=
  dropTrailingHyphens (lowerAll (replaceNonAlnum (trimWs msg)))

/-- Decimal rendering of Date.now(), for the artifact directory name. -/
def natStr (n : Nat) : JSStr := (Nat.repr n).data

/-- The configuration the operations read: `this.timeout`,
`this.options.baseUrl` and `this.options.debugDirectory` after the
constructor resolved them to definite values. -/
structure Cfg where
  timeout : Nat
  baseUrl : JSStr
  debugDirectory : JSStr
deriving DecidableEq

/-- The ambient state `error` reads: the Date.now() clock value and the
output of `ls -l` on the artifact directory it just created. -/
structure ErrEnv where
  now : Nat
  lsOutput : JSStr
deriving DecidableEq

/-- The artifact directory name
`debugDirectory + "/" + Date.now() + "-" + slug(msg)`
(SeleniumDriver.js line 177 and line 503). -/
def dirNameOf (cfg : Cfg) (e : ErrEnv) (msg : JSStr) : JSStr :=
  cfg.debugDirectory ++ jstr "/" ++ natStr e.now ++ jstr "-" ++ slug msg

/-- The message the documented `error` (lines 502-518) throws: the original
msg with the two appends
`msg += "\n\nDebug files created in: " + dirName + "\n"` and
`msg += execSync("ls -l " + dirName).toString()` applied before
`throw new Error(msg)`. -/
def errorRaisedMsg (cfg : Cfg) (e : ErrEnv) (msg : JSStr) : JSStr :=
  let dirName := dirNameOf cfg e msg
  let msg1 := msg ++ jstr "\n\nDebug files created in: " ++ dirName ++ jstr "\n"
  msg1 ++ e.lsOutput

/-- The earlier revision of `error` (lines 176-193): it creates the same
artifact directory, but prints the location note and the directory listing
with console.log and then executes `throw new Error(msg)` with the original
message.  The result is the rejection outcome paired with the console text. -/
def errorV0Run (cfg : Cfg) (e : ErrEnv) (msg : JSStr) : (JSStr × JSStr) :=
  let dirName := dirNameOf cfg e msg
  (msg, jstr "Debug files created in: " ++ dirName ++ jstr "\n" ++ e.lsOutput)

/-- `_pagePath` (lines 195-203 and 524-532): prepend a slash when
`page.substr(0, 1) !== "/"`. -/
def pagePath (page : JSStr) : JSStr :=
  if page.take 1 ≠ ['/'] then '/' :: page else page

/-- A title or URL target: a literal string, or a RegExp carried as its
source text together with its match predicate (the pattern engine is the
external collaborator). -/
inductive Target where
  | lit (s : JSStr)
  | pat (src : JSStr) (mtch : JSStr → Bool)

/-- The optional `content` argument of expectElement: omitted (undefined), a
literal string, or a RegExp. -/
inductive Content where
  | undef
  | lit (s : JSStr)
  | pat (src : JSStr) (mtch : JSStr → Bool)

/-- JS truthiness of `content`: undefined and the empty string are falsy, a
nonempty string and a RegExp object are truthy. -/
def contentTruthy : Content → Bool
  | .undef => false
  | .lit s => !s.isEmpty
  | .pat _ _ => true

/-- Whether a string starts with the given needle (used to model
JS `String.prototype.includes`). -/
def strStarts : JSStr → JSStr → Bool
  | [], _ => true
  | _ :: _, [] => false
  | a :: as, b :: bs => a == b && strStarts as bs

/-- JS `hay.includes(needle)`: substring containment. -/
def strContains (needle : JSStr) : JSStr → Bool
  | [] => needle.isEmpty
  | c :: rest => strStarts needle (c :: rest) || strContains needle rest

/-- `_matchText` (lines 205-215 and 540-550): "matches"/"is"/"contains"
followed by the quoted search value (a RegExp stringifies to its source). -/
def matchText (search : Content) (exct : Bool) : JSStr :=
  match search with
  | .pat src _ => jstr "matches: \x27" ++ src ++ jstr "\x27"
  | .lit s => (if exct then jstr "is: \x27" else jstr "contains: \x27") ++ s ++ jstr "\x27"
  | .undef => jstr "contains: \x27undefined\x27"

/-- `_matchTextNot` (lines 217-229 and 558-570): "did not match"/"was not"/
"did not contain" followed by the quoted search value. -/
def matchTextNot (search : Target) (exct : Bool) : JSStr :=
  match search with
  | .pat src _ => jstr "did not match: \x27" ++ src ++ jstr "\x27"
  | .lit s =>
    (if exct then jstr "was not: \x27" else jstr "did not contain: \x27") ++ s ++ jstr "\x27"

/-- The predicate waited on for element text: elementTextMatches /
elementTextIs / elementTextContains, chosen by the type of `content` and the
`exact` flag (lines 115-123 and 420-428). -/
def textCondition (content : Content) (exct : Bool) : JSStr → Bool :=
  match content with
  | .pat _ m => m
  | .lit s => if exct then (fun t => t == s) else (fun t => strContains s t)
  | .undef => fun _ => true

/-- The predicate waited on by expectTitle: titleMatches / titleIs /
titleContains (lines 93-105 and 390-402). -/
def titleCondition (title : Target) (exct : Bool) : JSStr → Bool :=
  match title with
  | .pat _ m => m
  | .lit s => if exct then (fun t => t == s) else (fun t => strContains s t)

/-- The predicate waited on by expectPage: urlMatches / urlIs(baseUrl +
pagePath page) / urlContains (lines 145-157 and 461-473). -/
def pageCondition (cfg : Cfg) (page : Target) (exct : Bool) : JSStr → Bool :=
  match page with
  | .pat _ m => m
  | .lit s =>
    if exct then (fun u => u == cfg.baseUrl ++ pagePath s)
    else (fun u => strContains s u)

/-- `driver.wait(until.X, timeout)` succeeds exactly when the awaited
condition holds at some state observed within the timeout window; the list
holds the observed states. -/
def waitFor (states : List JSStr) (cond : JSStr → Bool) : Bool := states.any cond

/-- Tags naming the waits an operation performed, in order. -/
inductive WaitTag where
  | located
  | visible
  | textIs
  | textContains
  | textMatches
  | titleWait
  | urlWait
  | staleWait
  | selectedWait
deriving DecidableEq

/-- The observable fate of an async method call: its promise resolves with a
value or rejects with an Error carrying the given message. -/
inductive Outcome (α : Type) where
  | ok (a : α)
  | raised (msg : JSStr)
deriving DecidableEq

/-- The observable run of one facade operation: the outcome its caller sees,
the messages of rejected promises the source constructed but never awaited
(these never reach the caller), and the waits performed. -/
structure Run (α : Type) where
  outcome : Outcome α
  unhandled : List JSStr
  trace : List WaitTag
deriving DecidableEq

/-- Which conditions become true within the timeout window during one
expectElement call: elementLocated, findElement succeeding, elementIsVisible,
and the element text states observed by the text wait. -/
structure ElemEnv where
  located : Bool
  findOk : Bool
  visible : Bool
  texts : List JSStr
deriving DecidableEq

/-- The tag of the text wait expectElement would perform for this content. -/
def textWaitTag (content : Content) (exct : Bool) : WaitTag :=
  match content with
  | .pat _ _ => .textMatches
  | .lit _ => if exct then .textIs else .textContains
  | .undef => .textContains

/-- The failure message expectElement hands to `error` (lines 127-131 and
432-436): the selector, plus the match description only when `content` is
truthy. -/
def expectElementMsg (selector : JSStr) (content : Content) (exct : Bool) : JSStr :=
  let msg := jstr "No element with selector: \x27" ++ selector ++ jstr "\x27"
  if contentTruthy content then msg ++ jstr " and text that " ++ matchText content exct
  else msg

/-- `expectElement` (lines 107-135 and 412-440): wait for the element to be
located, find it, wait for it to be visible, and, only when `content` is
truthy, wait for its text to satisfy the match policy.  Any timeout lands in
the catch block, which awaits `this.error(msg)`, so the augmented error is
raised to the caller. -/
def expectElement (cfg : Cfg) (e : ErrEnv) (env : ElemEnv) (selector : JSStr)
    (content : Content) (exct : Bool) : Run Unit :=
  let fail (tr : List WaitTag) : Run Unit :=
    { outcome := .raised (errorRaisedMsg cfg e (expectElementMsg selector content exct)),
      unhandled := [], trace := tr }
  if !env.located then fail [.located]
  else if !env.findOk then fail [.located]
  else if !env.visible then fail [.located, .visible]
  else if contentTruthy content then
    if waitFor env.texts (textCondition content exct) then
      { outcome := .ok (), unhandled := [], trace := [.located, .visible, textWaitTag content exct] }
    else fail [.located, .visible, textWaitTag content exct]
  else { outcome := .ok (), unhandled := [], trace := [.located, .visible] }

/-- The page-title states observed within one expectTitle wait window. -/
structure TitleEnv where
  titles : List JSStr
deriving DecidableEq

/-- `expectTitle` (lines 93-105 and 390-402): wait on the title condition; a
timeout lands in the catch block, which awaits `this.error`, raising the
augmented "Title did not ..." message. -/
def expectTitle (cfg : Cfg) (e : ErrEnv) (env : TitleEnv) (title : Target)
    (exct : Bool) : Run Unit :=
  if waitFor env.titles (titleCondition title exct) then
    { outcome := .ok (), unhandled := [], trace := [.titleWait] }
  else
    { outcome := .raised (errorRaisedMsg cfg e (jstr "Title " ++ matchTextNot title exct)),
      unhandled := [], trace := [.titleWait] }

/-- The URL states observed within one expectPage wait window. -/
structure PageEnv where
  urls : List JSStr
deriving DecidableEq

/-- `expectPage` body (lines 146-157 and 462-473; the two revisions have the
same body and differ only in the default of `exact`): wait on the URL
condition; a timeout lands in the catch block, which awaits `this.error`,
raising the augmented "Page did not ..." message. -/
def expectPage (cfg : Cfg) (e : ErrEnv) (env : PageEnv) (page : Target)
    (exct : Bool) : Run Unit :=
  if waitFor env.urls (pageCondition cfg page exct) then
    { outcome := .ok (), unhandled := [], trace := [.urlWait] }
  else
    { outcome := .raised (errorRaisedMsg cfg e (jstr "Page " ++ matchTextNot page exct)),
      unhandled := [], trace := [.urlWait] }

/-- `expectPage` called with `exact` omitted in the documented revision
(line 461: `async expectPage (page, exact = false)`). -/
def expectPageDefault (cfg : Cfg) (e : ErrEnv) (env : PageEnv) (page : Target) : Run Unit :=
  expectPage cfg e env page false

/-- `expectPage` called with `exact` omitted in the earlier revision
(line 145: `async expectPage (page, exact = true)`). -/
def expectPageDefaultV0 (cfg : Cfg) (e : ErrEnv) (env : PageEnv) (page : Target) : Run Unit :=
  expectPage cfg e env page true

/-- Which steps succeed during one click call after the element resolved. -/
structure ClickEnv where
  elem : ElemEnv
  clickOk : Bool
deriving DecidableEq

/-- The documented click failure message (line 330):
`Unable to click selector: '<selector>'`.  (The earlier revision at line 52
builds the same message without the closing quote.) -/
def clickMsg (selector : JSStr) : JSStr :=
  jstr "Unable to click selector: \x27" ++ selector ++ jstr "\x27"

/-- `click` (lines 46-54 and 324-332): resolve the element via expectElement
(that await propagates a rejection), then click; if the click throws, the
catch block calls `this.error(...)` WITHOUT await, so the rejection of the
async error call is discarded and click itself resolves normally. -/
def click (cfg : Cfg) (e : ErrEnv) (env : ClickEnv) (selector : JSStr) : Run Unit :=
  let er := expectElement cfg e env.elem selector .undef false
  match er.outcome with
  | .raised m => { outcome := .raised m, unhandled := er.unhandled, trace := er.trace }
  | .ok _ =>
    if env.clickOk then { outcome := .ok (), unhandled := [], trace := er.trace }
    else
      { outcome := .ok (),
        unhandled := [errorRaisedMsg cfg e (clickMsg selector)],
        trace := er.trace }

/-- Which steps succeed during one fillIn call after the element resolved. -/
structure FillEnv where
  elem : ElemEnv
  sendKeysOk : Bool
deriving DecidableEq

/-- The fillIn failure message (lines 66 and 351; both revisions omit the
closing quote): `Unable to send keys to selector: '<selector>`. -/
def fillMsg (selector : JSStr) : JSStr :=
  jstr "Unable to send keys to selector: \x27" ++ selector

/-- `fillIn` (lines 56-68 and 341-353): resolve the element via
expectElement, then send the keys (with or without a trailing ENTER; both
branches send keys and fail alike, so one flag models the send).  A throwing
sendKeys lands in the catch block, which calls `this.error(...)` WITHOUT
await, so fillIn itself resolves normally. -/
def fillIn (cfg : Cfg) (e : ErrEnv) (env : FillEnv) (selector : JSStr)
    (value : JSStr) (enter : Bool) : Run Unit :=
  let er := expectElement cfg e env.elem selector .undef false
  match er.outcome with
  | .raised m => { outcome := .raised m, unhandled := er.unhandled, trace := er.trace }
  | .ok _ =>
    let _ := value
    let _ := enter
    if env.sendKeysOk then { outcome := .ok (), unhandled := [], trace := er.trace }
    else
      { outcome := .ok (),
        unhandled := [errorRaisedMsg cfg e (fillMsg selector)],
        trace := er.trace }

/-- One option child of the select element: its value attribute and its
visible text. -/
structure OptionElem where
  value : JSStr
  text : JSStr
deriving DecidableEq

/-- Which steps succeed during one select call after the element resolved. -/
structure SelectEnv where
  elem : ElemEnv
  clickOk : Bool
  options : List OptionElem
  optionClickOk : Bool
  selectedOk : Bool
deriving DecidableEq

/-- The documented select failure message (line 380):
`Unable to select value/text: '<value>' from selector: '<selector>'`.
(The earlier revision at line 89 instead passes the caught exception object
itself to `error`.) -/
def selectMsg (value selector : JSStr) : JSStr :=
  jstr "Unable to select value/text: \x27" ++ value
    ++ jstr "\x27 from selector: \x27" ++ selector ++ jstr "\x27"

/-- The option the concurrent fan-out leaves in `option` (lines 79-83 and
370-374): each matching read writes `option = opt`, so among several matches
the one whose concurrent read completes last wins; with at most one matching
option every completion order agrees, and that deterministic case is the one
the theorems below use. -/
def chosenOption (options : List OptionElem) (value : JSStr) : Option OptionElem :=
  (options.filter (fun o => o.value == value || o.text == value)).getLast?

/-- `select` (lines 70-91 and 361-382): resolve the element via
expectElement, click it, scan the option children for one whose value
attribute or text equals `value`, click that option (clicking the undefined
option when none matched throws), and wait for it to report itself selected.
Any throw in the try block lands in the catch block, which calls
`this.error(...)` WITHOUT await, so select itself resolves normally. -/
def select (cfg : Cfg) (e : ErrEnv) (env : SelectEnv) (selector value : JSStr) : Run Unit :=
  let er := expectElement cfg e env.elem selector .undef false
  match er.outcome with
  | .raised m => { outcome := .raised m, unhandled := er.unhandled, trace := er.trace }
  | .ok _ =>
    let failRun : Run Unit :=
      { outcome := .ok (),
        unhandled := [errorRaisedMsg cfg e (selectMsg value selector)],
        trace := er.trace }
    if !env.clickOk then failRun
    else
      match chosenOption env.options value with
      | none => failRun
      | some _ =>
        if !env.optionClickOk then failRun
        else if !env.selectedOk then { failRun with trace := er.trace ++ [.selectedWait] }
        else { outcome := .ok (), unhandled := [], trace := er.trace ++ [.selectedWait] }

/-- The element handed to expectStale: whether it goes stale within the
timeout window, and the tag/id/class attributes elementSelector reads from
it for the failure message. -/
structure StaleEnv where
  stale : Bool
  tag : JSStr
  idAttr : JSStr
  className : JSStr
deriving DecidableEq

/-- JS `split(sep)` helper: the first segment before a separator and the
remaining segments. -/
def splitFirst (sep : Char) : JSStr → JSStr × List JSStr
  | [] => ([], [])
  | c :: rest =>
    let r := splitFirst sep rest
    if c == sep then ([], r.1 :: r.2) else (c :: r.1, r.2)

/-- JS `s.split(sep)` for a single-character separator: the segments between
separator occurrences, empty segments kept. -/
def splitOnChar (sep : Char) (l : JSStr) : List JSStr :=
  (splitFirst sep l).1 :: (splitFirst sep l).2

/-- JS `parts.join(sep)` for a single-character separator. -/
def joinWith (sep : Char) : List JSStr → JSStr
  | [] => []
  | [s] => s
  | s :: ss => s ++ sep :: joinWith sep ss

/-- `elementSelector` (lines 159-174 and 480-495) on the attribute values the
awaits read from the element: tag, then `#id` when the id attribute is truthy
and non-blank after trimming, then `.` + the class attribute with
`split(' ').join('.')` when the class attribute is truthy and non-blank. -/
def elementSelector (tag idAttr className : JSStr) : JSStr :=
  let s1 := tag
  let s2 :=
    if !idAttr.isEmpty && !(trimWs idAttr).isEmpty then s1 ++ '#' :: idAttr else s1
  if !className.isEmpty && !(trimWs className).isEmpty then
    s2 ++ '.' :: joinWith '.' (splitOnChar ' ' className)
  else s2

/-- The claim's reading of elementSelector: tag, then `#id` exactly when the
id is non-blank, then the class attribute dot-separated (each space becomes a
dot) prefixed with a dot exactly when the class is non-blank. -/
def specElementSelector (tag idAttr className : JSStr) : JSStr :=
  tag
    ++ (if !(trimWs idAttr).isEmpty then '#' :: idAttr else [])
    ++ (if !(trimWs className).isEmpty then
          '.' :: className.map (fun c => if c == ' ' then '.' else c)
        else [])

/-- `expectStale` (lines 137-143 and 447-453): wait for staleness; a timeout
lands in the catch block, which awaits `this.error`, raising the augmented
"Element is not stale" message built with elementSelector. -/
def expectStale (cfg : Cfg) (e : ErrEnv) (env : StaleEnv) : Run Unit :=
  if env.stale then { outcome := .ok (), unhandled := [], trace := [.staleWait] }
  else
    { outcome := .raised (errorRaisedMsg cfg e
        (jstr "Element is not stale: \x27"
          ++ elementSelector env.tag env.idAttr env.className ++ jstr "\x27")),
      unhandled := [], trace := [.staleWait] }

/-- The caller's options object: for every field, `none` means the key is
absent, `some none` means the key is present with the value undefined, and
`some (some v)` means the key is present with value v.  Object.assign copies
every own key, including ones whose value is undefined. -/
structure OptionsArg where
  timeout : Option (Option Nat)
  browser : Option (Option JSStr)
  baseUrl : Option (Option JSStr)
  logLevel : Option (Option JSStr)
  homePagePath : Option (Option JSStr)
  debugDirectory : Option (Option JSStr)
deriving DecidableEq

/-- The configuration after the constructor: each field is a definite value
or undefined. -/
structure ResolvedOptions where
  timeout : Option Nat
  browser : Option JSStr
  baseUrl : Option JSStr
  logLevel : Option JSStr
  homePagePath : Option JSStr
  debugDirectory : Option JSStr
deriving DecidableEq

/-- `process.env.BASE_URL || "http://localhost:3000"` (lines 8 and 266): the
environment value when it is set and nonempty (the empty string is falsy),
else the literal default. -/
def envOrDefault (envBaseUrl : Option JSStr) : JSStr :=
  match envBaseUrl with
  | some s => if s.isEmpty then jstr "http://localhost:3000" else s
  | none => jstr "http://localhost:3000"

/-- The `defaults` object (lines 5-13 and 263-270; the earlier revision adds
a notificationsParent entry that no claim concerns). -/
def defaultsFor (envBaseUrl : Option JSStr) : ResolvedOptions where
  timeout := some 1000
  browser := some (jstr "chrome")
  baseUrl := some (envOrDefault envBaseUrl)
  logLevel := some (jstr "SEVERE")
  homePagePath := some (jstr "/")
  debugDirectory := some (jstr "tmp/selenium-debug")

/-- One field of `Object.assign({}, defaults, options)`: a key present in
the options object (even with value undefined) overwrites the default; an
absent key leaves the default. -/
def assignField {α : Type} (d : Option α) (o : Option (Option α)) : Option α :=
  match o with
  | none => d
  | some v => v

/-- Truthiness of `logging.Level[name]`, modelled from the documented set of
recognized log level names (the lookup itself lives in the external
selenium-webdriver collaborator): the lookup is truthy exactly for the six
documented names, and a lookup with undefined is falsy. -/
def levelRecognized : Option JSStr → Bool
  | some s =>
    ([jstr "OFF", jstr "SEVERE", jstr "WARNING", jstr "INFO", jstr "DEBUG",
      jstr "ALL"] : List JSStr).contains s
  | none => false

/-- The constructor's option resolution (lines 16-22 and 281-287):
`this.options = Object.assign({}, defaults, options)` followed by
`if (!logging.Level[this.options.logLevel]) this.options.logLevel =
defaults.logLevel`. -/
def resolvedOptions (envBaseUrl : Option JSStr) (o : OptionsArg) : ResolvedOptions :=
  let d := defaultsFor envBaseUrl
  let merged : ResolvedOptions :=
    { timeout := assignField d.timeout o.timeout
      browser := assignField d.browser o.browser
      baseUrl := assignField d.baseUrl o.baseUrl
      logLevel := assignField d.logLevel o.logLevel
      homePagePath := assignField d.homePagePath o.homePagePath
      debugDirectory := assignField d.debugDirectory o.debugDirectory }
  if !(levelRecognized merged.logLevel) then { merged with logLevel := d.logLevel }
  else merged

/-- The slug the claim describes: the message lowercased, every run of
consecutive non-alphanumeric characters collapsed to a single hyphen, and no
leading or trailing hyphens. -/
def squashNonAlnumLower : JSStr → JSStr
  | [] => []
  | c :: rest =>
    let r := squashNonAlnumLower rest
    if isAlnumAscii c then c.toLower :: r
    else
      match r with
      | '-' :: _ => r
      | _ => '-' :: r

/-- The slug the claim describes, assembled: collapse non-alphanumeric runs
to single hyphens while lowercasing, then strip leading and trailing
hyphens. -/
def claimSlugC5 (msg : JSStr) : JSStr :=
  dropTrailingHyphens ((squashNonAlnumLower msg).dropWhile (fun c => c == '-'))

/-- The slug the source actually computes, in one pass: whitespace-trim,
then map every character (lowercasing alphanumerics, every other character
becoming its own hyphen), then strip trailing hyphens only. -/
def amendedSlug (msg : JSStr) : JSStr :=
  dropTrailingHyphens
    ((trimWs msg).map (fun c => if isAlnumAscii c then c.toLower else '-'))

/-- A configuration with the documented defaults, for concrete runs. -/
def cfg0 : Cfg where
  timeout := 1000
  baseUrl := jstr "http://localhost:3000"
  debugDirectory := jstr "tmp/selenium-debug"

/-- A concrete error environment: clock at 0, a fixed directory listing. -/
def errEnv0 : ErrEnv where
  now := 0
  lsOutput := jstr "total 2"

/-- An element environment in which expectElement succeeds. -/
def happyElem : ElemEnv where
  located := true
  findOk := true
  visible := true
  texts := []

/-- The select environment of the C1 run: the element resolves, a single
option matches, its click succeeds, but elementIsSelected never holds within
the timeout. -/
def selEnvC1 : SelectEnv where
  elem := happyElem
  clickOk := true
  options := [{ value := jstr "b", text := jstr "Option B" }]
  optionClickOk := true
  selectedOk := false

/-- A click environment whose element resolves but whose click throws. -/
def clickEnvC3 : ClickEnv where
  elem := happyElem
  clickOk := false

/-- A fillIn environment whose element resolves but whose sendKeys throws. -/
def fillEnvC3 : FillEnv where
  elem := happyElem
  sendKeysOk := false

/-- A select environment whose element resolves but which has no option
matching the requested value, so the click against the undefined option
throws. -/
def selEnvC3 : SelectEnv where
  elem := happyElem
  clickOk := true
  options := []
  optionClickOk := true
  selectedOk := true

/-- The URL states for the expectPage scenario: only
`baseUrl + "/dashboard/extra"` is ever observed. -/
def pageEnvDash : PageEnv where
  urls := [cfg0.baseUrl ++ jstr "/dashboard/extra"]

theorem strStarts_iff (n h : JSStr) : strStarts n h = true ↔ ∃ t, h = n ++ t := by
  induction n generalizing h with
  | nil => simp [strStarts]
  | cons a as ih =>
    cases h with
    | nil => simp [strStarts]
    | cons b bs =>
      constructor
      · intro hst
        simp only [strStarts, Bool.and_eq_true, beq_iff_eq] at hst
        rcases (ih bs).mp hst.2 with ⟨t, ht⟩
        refine ⟨t, ?_⟩
        simp [List.cons_append, ht, hst.1]
      · rintro ⟨t, ht⟩
        simp only [List.cons_append, List.cons_eq_cons] at ht
        simp only [strStarts, Bool.and_eq_true, beq_iff_eq]
        exact ⟨ht.1.symm, (ih bs).mpr ⟨t, ht.2⟩⟩

theorem strContains_iff (n h : JSStr) : strContains n h = true ↔ ∃ p q, h = p ++ n ++ q := by
  induction h with
  | nil =>
    constructor
    · intro hn
      have hne : n = [] := by simpa [strContains, List.isEmpty_iff] using hn
      exact ⟨[], [], by simp [hne]⟩
    · rintro ⟨p, q, hp⟩
      have h1 := List.append_eq_nil.mp hp.symm
      have h2 := List.append_eq_nil.mp h1.1
      simp [strContains, List.isEmpty_iff, h2.2]
  | cons c rest ih =>
    simp only [strContains, Bool.or_eq_true, strStarts_iff, ih]
    constructor
    · rintro (⟨t, ht⟩ | ⟨p, q, hp⟩)
      · exact ⟨[], t, by simpa using ht⟩
      · exact ⟨c :: p, q, by simp [hp]⟩
    · rintro ⟨p, q, hp⟩
      cases p with
      | nil => exact Or.inl ⟨q, by simpa using hp⟩
      | cons x xs =>
        simp only [List.cons_append, List.cons_eq_cons] at hp
        exact Or.inr ⟨xs, q, hp.2⟩

theorem joinWith_cons (c : Char) (s : JSStr) (ss : List JSStr) :
    joinWith '.' ((c :: s) :: ss) = c :: joinWith '.' (s :: ss) := by
  cases ss <;> simp [joinWith]

theorem joinSplit_eq_map (l : JSStr) :
    joinWith '.' (splitOnChar ' ' l) =
      l.map (fun c => if c == ' ' then '.' else c) := by
  induction l with
  | nil => rfl
  | cons c rest ih =>
    unfold splitOnChar at ih ⊢
    by_cases hc : c = ' '
    · subst hc
      have h1 : splitFirst ' ' (' ' :: rest) =
          ([], (splitFirst ' ' rest).1 :: (splitFirst ' ' rest).2) := by
        simp [splitFirst]
      rw [h1]
      simpa [joinWith] using ih
    · have h1 : splitFirst ' ' (c :: rest) =
          (c :: (splitFirst ' ' rest).1, (splitFirst ' ' rest).2) := by
        simp [splitFirst, hc]
      rw [h1, joinWith_cons, ih]
      simp [hc]

theorem truthy_and_trim (l : JSStr) :
    (!l.isEmpty && !(trimWs l).isEmpty) = !(trimWs l).isEmpty := by
  cases l with
  | nil => rfl
  | cons c r => simp [List.isEmpty]

theorem slug_eq_amended (msg : JSStr) : slug msg = amendedSlug msg := by
  unfold slug amendedSlug lowerAll replaceNonAlnum
  rw [List.map_map]
  have h : (Char.toLower ∘ fun c => if isAlnumAscii c then c else '-')
      = fun c => if isAlnumAscii c then c.toLower else '-' := by
    funext c
    cases hc : isAlnumAscii c <;> simp [Function.comp, hc]
  rw [h]

theorem resolved_timeout (envBaseUrl : Option JSStr) (o : OptionsArg) :
    (resolvedOptions envBaseUrl o).timeout = assignField (some 1000) o.timeout := by
  cases hll : levelRecognized (assignField (some (jstr "SEVERE")) o.logLevel) <;>
    simp [resolvedOptions, defaultsFor, hll]

theorem resolved_browser (envBaseUrl : Option JSStr) (o : OptionsArg) :
    (resolvedOptions envBaseUrl o).browser = assignField (some (jstr "chrome")) o.browser := by
  cases hll : levelRecognized (assignField (some (jstr "SEVERE")) o.logLevel) <;>
    simp [resolvedOptions, defaultsFor, hll]

theorem resolved_baseUrl (envBaseUrl : Option JSStr) (o : OptionsArg) :
    (resolvedOptions envBaseUrl o).baseUrl =
      assignField (some (envOrDefault envBaseUrl)) o.baseUrl := by
  cases hll : levelRecognized (assignField (some (jstr "SEVERE")) o.logLevel) <;>
    simp [resolvedOptions, defaultsFor, hll]

theorem resolved_homePagePath (envBaseUrl : Option JSStr) (o : OptionsArg) :
    (resolvedOptions envBaseUrl o).homePagePath = assignField (some (jstr "/")) o.homePagePath := by
  cases hll : levelRecognized (assignField (some (jstr "SEVERE")) o.logLevel) <;>
    simp [resolvedOptions, defaultsFor, hll]

theorem resolved_debugDirectory (envBaseUrl : Option JSStr) (o : OptionsArg) :
    (resolvedOptions envBaseUrl o).debugDirectory =
      assignField (some (jstr "tmp/selenium-debug")) o.debugDirectory := by
  cases hll : levelRecognized (assignField (some (jstr "SEVERE")) o.logLevel) <;>
    simp [resolvedOptions, defaultsFor, hll]

theorem resolved_logLevel (envBaseUrl : Option JSStr) (o : OptionsArg) :
    (resolvedOptions envBaseUrl o).logLevel =
      (if !(levelRecognized (assignField (some (jstr "SEVERE")) o.logLevel))
       then some (jstr "SEVERE")
       else assignField (some (jstr "SEVERE")) o.logLevel) := by
  cases hll : levelRecognized (assignField (some (jstr "SEVERE")) o.logLevel) <;>
    simp [resolvedOptions, defaultsFor, hll]

/-- C1: a timed-out wait inside expectElement, expectTitle, expectPage and
expectStale is routed through the unified failure path and raised to the
caller, because those catch blocks execute `await this.error(...)`.  The
wait-until-selected step inside select, however, violates the claim: its
catch block (lines 88-90 and 379-381) calls `this.error(...)` WITHOUT await,
so when `until.elementIsSelected` never holds within the timeout the
rejection of the error call is discarded and select resolves normally — in
conflict with the claim and with the method's own @throws documentation.
This theorem evaluates the embedded code at that failing input (a select
whose single matching option is clicked but never reports selected) and at
timing-out runs of the four expect operations. -/
theorem c1_select_selected_wait_timeout_resolves_normally :
    (select cfg0 errEnv0 selEnvC1 (jstr "#dropdown") (jstr "Option B")).outcome
        = Outcome.ok () ∧
    (select cfg0 errEnv0 selEnvC1 (jstr "#dropdown") (jstr "Option B")).unhandled
        = [errorRaisedMsg cfg0 errEnv0 (selectMsg (jstr "Option B") (jstr "#dropdown"))] ∧
    (select cfg0 errEnv0 selEnvC1 (jstr "#dropdown") (jstr "Option B")).trace
        = [WaitTag.located, WaitTag.visible, WaitTag.selectedWait] ∧
    (expectTitle cfg0 errEnv0 { titles := [] } (Target.lit (jstr "Home")) false).outcome
        = Outcome.raised (errorRaisedMsg cfg0 errEnv0
            (jstr "Title " ++ matchTextNot (Target.lit (jstr "Home")) false)) ∧
    (expectPage cfg0 errEnv0 { urls := [] } (Target.lit (jstr "/x")) false).outcome
        = Outcome.raised (errorRaisedMsg cfg0 errEnv0
            (jstr "Page " ++ matchTextNot (Target.lit (jstr "/x")) false)) ∧
    (expectElement cfg0 errEnv0
        { located := false, findOk := true, visible := true, texts := [] }
        (jstr ".missing") Content.undef false).outcome
        = Outcome.raised (errorRaisedMsg cfg0 errEnv0
            (expectElementMsg (jstr ".missing") Content.undef false)) ∧
    (expectStale cfg0 errEnv0
        { stale := false, tag := jstr "p", idAttr := jstr "", className := jstr "" }).outcome
        = Outcome.raised (errorRaisedMsg cfg0 errEnv0
            (jstr "Element is not stale: \x27p\x27")) := by
  decide

/-- C2 counterexample: the earlier revision of `error` (lines 176-193) prints
the artifact note and listing to the console and raises the ORIGINAL message:
at the concrete message "boom" it raises "boom", which differs from "boom"
with the artifact-directory note and the listing appended. -/
theorem c2_counterexample :
    (errorV0Run cfg0 errEnv0 (jstr "boom")).1 = jstr "boom" ∧
    jstr "boom" ≠ jstr "boom" ++ (jstr "\n\nDebug files created in: "
      ++ dirNameOf cfg0 errEnv0 (jstr "boom") ++ jstr "\n") ++ errEnv0.lsOutput := by
  decide

/-- C2 (amended): the documented `error` (lines 502-518) raises an error
whose message is the original msg with a note of the artifact directory and
the directory listing appended, and the wait operations raise exactly that
augmented message on timeout (expectTitle shown as representative). -/
theorem c2_error_raises_augmented_message (cfg : Cfg) (e : ErrEnv) (msg : JSStr) :
    errorRaisedMsg cfg e msg =
      msg ++ (jstr "\n\nDebug files created in: " ++ dirNameOf cfg e msg ++ jstr "\n")
        ++ e.lsOutput ∧
    (∃ rest, errorRaisedMsg cfg e msg = msg ++ rest) ∧
    (expectTitle cfg e { titles := [] } (Target.lit msg) false).outcome =
      Outcome.raised (errorRaisedMsg cfg e
        (jstr "Title " ++ matchTextNot (Target.lit msg) false)) := by
  refine ⟨?_, ?_, ?_⟩
  · simp [errorRaisedMsg, List.append_assoc]
  · exact ⟨(jstr "\n\nDebug files created in: " ++ dirNameOf cfg e msg ++ jstr "\n")
      ++ e.lsOutput, by simp [errorRaisedMsg, List.append_assoc]⟩
  · simp [expectTitle, waitFor]

/-- C3: when an interaction action throws after the element resolved, the
facade does invoke the unified failure path with the action-specific message
(`Unable to click selector: ...`, `Unable to send keys to selector: ...`,
`Unable to select value/text: ... from selector: ...`, the last also covering
the no-matching-option case), but the final clause of the claim fails: the
catch blocks of click, fillIn and select call `this.error(...)` WITHOUT
await, so the constructed rejection is discarded and each method resolves
normally instead of raising the error to its caller.  This theorem evaluates
the embedded code at the failing inputs: a throwing click, a throwing
sendKeys, and a select whose value matches no option. -/
theorem c3_interaction_failures_are_not_raised :
    (click cfg0 errEnv0 clickEnvC3 (jstr "#btn")).outcome = Outcome.ok () ∧
    (click cfg0 errEnv0 clickEnvC3 (jstr "#btn")).unhandled
        = [errorRaisedMsg cfg0 errEnv0 (clickMsg (jstr "#btn"))] ∧
    (fillIn cfg0 errEnv0 fillEnvC3 (jstr "#name") (jstr "hi") false).outcome = Outcome.ok () ∧
    (fillIn cfg0 errEnv0 fillEnvC3 (jstr "#name") (jstr "hi") false).unhandled
        = [errorRaisedMsg cfg0 errEnv0 (fillMsg (jstr "#name"))] ∧
    (select cfg0 errEnv0 selEnvC3 (jstr "#sel") (jstr "nope")).outcome = Outcome.ok () ∧
    (select cfg0 errEnv0 selEnvC3 (jstr "#sel") (jstr "nope")).unhandled
        = [errorRaisedMsg cfg0 errEnv0 (selectMsg (jstr "nope") (jstr "#sel"))] ∧
    clickMsg (jstr "#btn") = jstr "Unable to click selector: \x27#btn\x27" ∧
    selectMsg (jstr "nope") (jstr "#sel")
        = jstr "Unable to select value/text: \x27nope\x27 from selector: \x27#sel\x27" := by
  decide

/-- C4 counterexample: the earlier revision of expectPage (line 145) defaults
`exact` to true, not false: with the single observed URL
baseUrl + "/dashboard/extra", calling it with `exact` omitted on
"/dashboard" differs from expectPage with exact=false (the former times out
and raises, the latter succeeds by substring containment). -/
theorem c4_counterexample :
    expectPageDefaultV0 cfg0 errEnv0 pageEnvDash (Target.lit (jstr "/dashboard")) ≠
      expectPage cfg0 errEnv0 pageEnvDash (Target.lit (jstr "/dashboard")) false := by
  decide

/-- C4 (amended): the documented expectPage (lines 461-473) has default
exact=false; with a literal path and exact=true it waits for the current URL
to equal baseUrl + pagePath(path) exactly, so baseUrl + "/dashboard/extra"
never satisfies expectPage("/dashboard", true); with exact=false it waits for
substring containment of the path in the URL; with a pattern it waits for a
pattern match.  The earlier revision of expectPage (lines 145-157) has the
same body but default exact=true. -/
theorem c4_expectPage_match_policy (cfg : Cfg) (e : ErrEnv) (env : PageEnv)
    (page : Target) (s u src : JSStr) (exct : Bool) (m : JSStr → Bool) :
    expectPageDefault cfg e env page = expectPage cfg e env page false ∧
    expectPageDefaultV0 cfg e env page = expectPage cfg e env page true ∧
    (pageCondition cfg (Target.lit s) true u = true ↔ u = cfg.baseUrl ++ pagePath s) ∧
    (pageCondition cfg (Target.lit s) false u = true ↔ ∃ p q, u = p ++ s ++ q) ∧
    pageCondition cfg (Target.pat src m) exct u = m u ∧
    pageCondition cfg (Target.lit (jstr "/dashboard")) true
        (cfg.baseUrl ++ jstr "/dashboard/extra") = false ∧
    ((expectPage cfg e env page exct).outcome = Outcome.ok () ↔
      waitFor env.urls (pageCondition cfg page exct) = true) := by
  refine ⟨rfl, rfl, ?_, ?_, rfl, ?_, ?_⟩
  · simp [pageCondition, beq_iff_eq]
  · simp [pageCondition, strContains_iff]
  · show (cfg.baseUrl ++ jstr "/dashboard/extra"
        == cfg.baseUrl ++ pagePath (jstr "/dashboard")) = false
    rw [beq_eq_false_iff_ne]
    intro h
    have h2 := List.append_cancel_left h
    exact absurd h2 (by decide)
  · cases hw : waitFor env.urls (pageCondition cfg page exct) <;> simp [expectPage, hw]

/-- C5 counterexample: the source's slug replaces EACH non-alphanumeric
character with its own hyphen and trims only trailing hyphens, so a run of
two non-alphanumerics yields a double hyphen and a leading non-alphanumeric
yields a leading hyphen, both contradicting the claimed
runs-collapsed/no-leading-hyphen slug. -/
theorem c5_counterexample :
    slug (jstr "a !b") = jstr "a--b" ∧
    claimSlugC5 (jstr "a !b") = jstr "a-b" ∧
    slug (jstr "a !b") ≠ claimSlugC5 (jstr "a !b") ∧
    slug (jstr "!a") = jstr "-a" ∧
    claimSlugC5 (jstr "!a") = jstr "a" := by
  decide

/-- C5 (amended): the slug is the whitespace-trimmed message with every
character mapped individually — alphanumerics lowercased, every other
character becoming its own hyphen — and with trailing hyphens (only)
removed; "Bad Thing!" still slugs to "bad-thing". -/
theorem c5_slug_per_character (msg : JSStr) :
    slug msg = amendedSlug msg ∧ slug (jstr "Bad Thing!") = jstr "bad-thing" :=
  ⟨slug_eq_amended msg, by decide⟩

/-- C6: every field absent from the caller's options resolves to its
documented default (timeout 1000, browser "chrome", baseUrl from the
environment when set and nonempty else "http://localhost:3000", logLevel
"SEVERE", homePagePath "/", debugDirectory "tmp/selenium-debug"), and a
supplied logLevel outside the recognized set {OFF, SEVERE, WARNING, INFO,
DEBUG, ALL} is replaced by "SEVERE". -/
theorem c6_constructor_defaults (envBaseUrl : Option JSStr) (o : OptionsArg) (s : JSStr) :
    (o.timeout = none → (resolvedOptions envBaseUrl o).timeout = some 1000) ∧
    (o.browser = none → (resolvedOptions envBaseUrl o).browser = some (jstr "chrome")) ∧
    (o.baseUrl = none → envBaseUrl = none →
      (resolvedOptions envBaseUrl o).baseUrl = some (jstr "http://localhost:3000")) ∧
    (o.baseUrl = none → envBaseUrl = some s → s ≠ [] →
      (resolvedOptions envBaseUrl o).baseUrl = some s) ∧
    (o.logLevel = none → (resolvedOptions envBaseUrl o).logLevel = some (jstr "SEVERE")) ∧
    (o.homePagePath = none → (resolvedOptions envBaseUrl o).homePagePath = some (jstr "/")) ∧
    (o.debugDirectory = none →
      (resolvedOptions envBaseUrl o).debugDirectory = some (jstr "tmp/selenium-debug")) ∧
    (o.logLevel = some (some s) →
      s ∉ ([jstr "OFF", jstr "SEVERE", jstr "WARNING", jstr "INFO", jstr "DEBUG",
        jstr "ALL"] : List JSStr) →
      (resolvedOptions envBaseUrl o).logLevel = some (jstr "SEVERE")) := by
  refine ⟨?_, ?_, ?_, ?_, ?_, ?_, ?_, ?_⟩
  · intro h; rw [resolved_timeout, h]; rfl
  · intro h; rw [resolved_browser, h]; rfl
  · intro h he; rw [resolved_baseUrl, h]; subst he; rfl
  · intro h he hs; rw [resolved_baseUrl, h]; subst he
    cases s with
    | nil => exact absurd rfl hs
    | cons a t => rfl
  · intro h; rw [resolved_logLevel, h]; decide
  · intro h; rw [resolved_homePagePath, h]; rfl
  · intro h; rw [resolved_debugDirectory, h]; rfl
  · intro h hmem
    have hc : levelRecognized (assignField (some (jstr "SEVERE")) o.logLevel) = false := by
      rw [h]
      simp [levelRecognized, assignField]
      simpa using hmem
    rw [resolved_logLevel, hc]
    rfl

/-- C7: pagePath returns the path unchanged when it already starts with a
slash and prepends a slash otherwise (including the empty path), hence it is
idempotent; pagePath "foo" = "/foo" and pagePath "/foo" = "/foo". -/
theorem c7_pagePath_normalization (p t : JSStr) (c : Char) :
    pagePath ('/' :: t) = '/' :: t ∧
    (c ≠ '/' → pagePath (c :: t) = '/' :: c :: t) ∧
    pagePath [] = ['/'] ∧
    pagePath (pagePath p) = pagePath p ∧
    pagePath (jstr "foo") = jstr "/foo" ∧
    pagePath (jstr "/foo") = jstr "/foo" := by
  refine ⟨?_, ?_, by decide, ?_, by decide, by decide⟩
  · simp [pagePath]
  · intro h; simp [pagePath, h]
  · cases p with
    | nil => decide
    | cons a r =>
      by_cases ha : a = '/'
      · subst ha; simp [pagePath]
      · simp [pagePath, ha]

/-- C8: elementSelector is the tag, then `#id` exactly when the id attribute
is non-blank (nonempty after trimming), then a dot followed by the class
attribute with every space turned into a dot (so space-separated classes
come out dot-separated, each class preceded by a dot) exactly when the class
attribute is non-blank; with the claim's three examples. -/
theorem c8_elementSelector_matches_spec (tag idAttr className : JSStr) :
    elementSelector tag idAttr className = specElementSelector tag idAttr className ∧
    elementSelector (jstr "div") (jstr "") (jstr "a b") = jstr "div.a.b" ∧
    elementSelector (jstr "span") (jstr "x") (jstr "") = jstr "span#x" ∧
    elementSelector (jstr "p") (jstr "") (jstr "") = jstr "p" := by
  refine ⟨?_, by decide, by decide, by decide⟩
  unfold elementSelector specElementSelector
  rw [truthy_and_trim idAttr, truthy_and_trim className, joinSplit_eq_map]
  by_cases hi : (trimWs idAttr).isEmpty = true <;>
    by_cases hcl : (trimWs className).isEmpty = true <;>
      simp [hi, hcl, List.append_assoc]

/-- C9 counterexample: the claim fails for the logLevel key: an options
object with logLevel explicitly set to undefined does NOT resolve to
undefined — the undefined value fails the log-level lookup and is reset to
the default "SEVERE". -/
theorem c9_counterexample :
    (resolvedOptions none
      { timeout := none, browser := none, baseUrl := none, logLevel := some none,
        homePagePath := none, debugDirectory := none }).logLevel ≠ none := by
  decide

/-- C9 (amended): the merge copies every own key of the options object over
the defaults, so a key explicitly set to undefined leaves undefined rather
than the documented default for timeout, browser, baseUrl, homePagePath and
debugDirectory; logLevel is the exception: an explicitly-undefined logLevel
fails the recognition check and is reset to "SEVERE". -/
theorem c9_undefined_key_overrides_default (envBaseUrl : Option JSStr) (o : OptionsArg) :
    (o.timeout = some none → (resolvedOptions envBaseUrl o).timeout = none) ∧
    (o.browser = some none → (resolvedOptions envBaseUrl o).browser = none) ∧
    (o.baseUrl = some none → (resolvedOptions envBaseUrl o).baseUrl = none) ∧
    (o.homePagePath = some none → (resolvedOptions envBaseUrl o).homePagePath = none) ∧
    (o.debugDirectory = some none → (resolvedOptions envBaseUrl o).debugDirectory = none) ∧
    (o.logLevel = some none → (resolvedOptions envBaseUrl o).logLevel = some (jstr "SEVERE")) := by
  refine ⟨?_, ?_, ?_, ?_, ?_, ?_⟩
  · intro h; rw [resolved_timeout, h]; rfl
  · intro h; rw [resolved_browser, h]; rfl
  · intro h; rw [resolved_baseUrl, h]; rfl
  · intro h; rw [resolved_homePagePath, h]; rfl
  · intro h; rw [resolved_debugDirectory, h]; rfl
  · intro h; rw [resolved_logLevel, h]; decide

/-- C10: expectElement with the empty string as content behaves exactly as
expectElement with content omitted (and the default exact=false): the empty
string is falsy, so the text wait is skipped entirely and the timeout
message carries no text-match description. -/
theorem c10_empty_content_behaves_as_omitted (cfg : Cfg) (e : ErrEnv) (env : ElemEnv)
    (selector : JSStr) (exct : Bool) :
    expectElement cfg e env selector (Content.lit []) exct =
      expectElement cfg e env selector Content.undef false ∧
    expectElementMsg selector (Content.lit []) exct =
      jstr "No element with selector: \x27" ++ selector ++ jstr "\x27" :=
  ⟨rfl, rfl⟩
